import Mathlib

/-!
Verification development for the Chabadrc-Calendar facility-management
application (src/index.tsx). The embedding models JS `Date` values at
day precision (days since 1970-01-01) plus an hour/minute time of day,
which is exact for every date operation the program performs
(`getDay`, `getDate`, `setDate`, `setHours`, `setMinutes`, date-fns
`startOfYear`, `addWeeks`, `startOfMonth`, `endOfMonth`, `startOfWeek`,
`endOfWeek`, `eachDayOfInterval`, `isSameDay`). Calendar arithmetic uses
the standard civil-calendar algorithms. The impure id source
`generateId = Math.random().toString(36).substr(2, 9)` is modelled as an
explicit stream `ids : Nat → String` of its successive results, one draw
per created event, consumed in program order.
-/

namespace ChabadCalendar

/-- Gregorian leap-year test. -/
def isLeapYear (y : Int) : Bool :=
  y % 4 == 0 && (y % 100 != 0 || y % 400 == 0)

/-- Number of days of month `m` (1-based) in year `y`; months outside
`1..12` take the default branch (they never arise in the program). -/
def daysInMonth (y m : Int) : Int :=
  if m == 2 then (if isLeapYear y then 29 else 28)
  else if m == 4 || m == 6 || m == 9 || m == 11 then 30
  else 31

/-- Day number (days since 1970-01-01) of the first day of month `m`
(1-based) of year `y`, by the standard era/year-of-era decomposition. -/
def monthAnchor (y m : Int) : Int :=
  let y2 := if m ≤ 2 then y - 1 else y
  let era := (if 0 ≤ y2 then y2 else y2 - 399).tdiv 400
  let yoe := y2 - era * 400
  let mp := if 2 < m then m - 3 else m + 9
  let doy := (153 * mp + 2).tdiv 5
  let doe := yoe * 365 + yoe.tdiv 4 - yoe.tdiv 100 + doy
  era * 146097 + doe - 719468

/-- Day number of the civil date `(y, m, d)`; a `d` outside
`1..daysInMonth` normalizes into adjacent months, exactly as the JS
`Date.setDate` overload does. -/
def daysFromCivil (y m d : Int) : Int := monthAnchor y m + (d - 1)

/-- Civil date `(year, month, day)` of a day number. -/
def civilFromDays (z : Int) : Int × Int × Int :=
  let z2 := z + 719468
  let era := (if 0 ≤ z2 then z2 else z2 - 146096).tdiv 146097
  let doe := z2 - era * 146097
  let yoe := (doe - doe.tdiv 1460 + doe.tdiv 36524 - doe.tdiv 146096).tdiv 365
  let y := yoe + era * 400
  let doy := doe - (365 * yoe + yoe.tdiv 4 - yoe.tdiv 100)
  let mp := (5 * doy + 2).tdiv 153
  let d := doy - (153 * mp + 2).tdiv 5 + 1
  let m := if mp < 10 then mp + 3 else mp - 9
  (if m ≤ 2 then y + 1 else y, m, d)

/-- Day of week of a day number, `0` = Sunday .. `6` = Saturday
(1970-01-01 was a Thursday, day `4`), as JS `Date.getDay`. -/
def dayOfWeek (t : Int) : Int := (t + 4) % 7

/-- A JS `Date` value at the precision the program uses: a civil day
(days since 1970-01-01) and a time of day. Seconds and milliseconds are
always zero in every date the program constructs. -/
structure JSDateTime where
  day : Int
  hour : Nat
  minute : Nat
deriving DecidableEq

/-- JS `new Date(year, monthIndex, dayOfMonth, hour, minute)` with the
0-based `monthIndex` of the source. -/
def jsMkDate (year monthIndex dayOfMonth : Int) (hour minute : Nat) : JSDateTime :=
  ⟨daysFromCivil year (monthIndex + 1) dayOfMonth, hour, minute⟩

/-- JS `Date.getDay` (day of week, 0 = Sunday). -/
def JSDateTime.getDay (t : JSDateTime) : Int := dayOfWeek t.day

/-- JS `Date.getDate` (day of month). -/
def JSDateTime.getDate (t : JSDateTime) : Int := (civilFromDays t.day).2.2

/-- JS `Date.setDate n`: sets the day of month to `n`, normalizing
out-of-range values into adjacent months; time of day is kept. -/
def JSDateTime.setDate (t : JSDateTime) (n : Int) : JSDateTime :=
  let c := civilFromDays t.day
  { t with day := daysFromCivil c.1 c.2.1 n }

/-- JS `Date.setHours h` (also date-fns `setHours`): sets the hour,
keeping minutes; hours `≥ 24` roll into following days. -/
def JSDateTime.setHours (t : JSDateTime) (h : Nat) : JSDateTime :=
  { t with day := t.day + (h / 24 : Nat), hour := h % 24 }

/-- JS `Date.setMinutes m` (also date-fns `setMinutes`). -/
def JSDateTime.setMinutes (t : JSDateTime) (m : Nat) : JSDateTime :=
  { t with minute := m }

/-- date-fns `addWeeks` (pure: returns a new date). -/
def addWeeks (t : JSDateTime) (n : Int) : JSDateTime :=
  { t with day := t.day + 7 * n }

/-- date-fns `startOfYear(new Date())`, given the current year: local
midnight on January 1st. -/
def startOfYear (year : Int) : JSDateTime := ⟨daysFromCivil year 1 1, 0, 0⟩

/-- date-fns `isSameDay`: same civil day, ignoring time of day. -/
def isSameDay (a b : JSDateTime) : Bool := a.day == b.day

/-- Timestamp in minutes, the order JS `Date` comparison uses. -/
def JSDateTime.toMinutes (t : JSDateTime) : Int :=
  t.day * 1440 + (t.hour : Int) * 60 + (t.minute : Int)

/-- The `EventCategory` union type of src/index.tsx. -/
inductive EventCategory where
  | maintenance
  | cleaning
  | event
deriving DecidableEq

/-- The `Floor` union type `1 | 2 | 3 | 4 | 5 | 6` of src/index.tsx;
constructor `fk` is floor `k`. -/
inductive Floor where
  | f1 | f2 | f3 | f4 | f5 | f6
deriving DecidableEq

/-- The `CalendarEvent` interface of src/index.tsx. -/
structure CalendarEvent where
  id : String
  title : String
  start : JSDateTime
  «end» : JSDateTime
  category : EventCategory
  floor : Floor
  room : String
  description : Option String
  isRecurring : Option Bool
deriving DecidableEq

/-- The `Request.status` union type. -/
inductive RequestStatus where
  | pending
  | approved
  | rejected
deriving DecidableEq

/-- The `Request` interface of src/index.tsx. -/
structure Request where
  id : String
  title : String
  date : JSDateTime
  category : EventCategory
  floor : Floor
  room : String
  description : String
  status : RequestStatus
  submittedBy : Option String
deriving DecidableEq

/-- The `FilterState` interface of src/index.tsx; `floor = none` models
both `null` and `undefined` (the two falsy cases of `filters.floor`,
since floors `1..6` are all truthy). -/
structure FilterState where
  showMaintenance : Bool
  showCleaning : Bool
  showEvents : Bool
  floor : Option Floor
deriving DecidableEq

/-- The `createEvent` helper (src/index.tsx lines 62-82): a 9 AM start
on the day of `date` and an end `durationHours` later (default 1 at
every call site). `idStr` is the result of its `generateId()` call. -/
def createEvent (idStr : String) (title : String) (date : JSDateTime)
    (category : EventCategory) (floor : Floor) (room : String)
    (durationHours : Nat) : CalendarEvent :=
  let start := (JSDateTime.setHours date 9).setMinutes 0
  let «end» := start.setHours (9 + durationHours)
  { id := idStr, title := title, start := start, «end» := «end»,
    category := category, floor := floor, room := room,
    description := none, isRecurring := some true }

/-- One iteration of the weekly-inspection loop (src/index.tsx lines
99-104). In the source, `let current = yearStart` makes `current` an
alias of the same `Date` object, so `current.setDate(diff)` mutates the
shared `yearStart`; the mutable cell is passed here explicitly. The
iteration first performs the mutation (the dead `monday` binding exists
only for this side effect), then builds the pushed event from the
mutated cell via `addWeeks(yearStart, i)`. -/
def chillerIter (idStr : String) (cell : JSDateTime) (i : Nat) :
    CalendarEvent × JSDateTime :=
  let day := cell.getDay
  let diff := cell.getDate - day + (if day == 0 then -6 else 1)
  let cell2 := cell.setDate diff
  (createEvent idStr "Chiller Inspection" (addWeeks cell2 (i : Int))
    .maintenance .f6 "Rooftop" 1, cell2)

/-- The weekly-inspection loop (src/index.tsx lines 98-105), starting
at iteration `i` with the shared cell holding `cell` and running for
the given number of remaining iterations: returns the events pushed, in
push order, together with the final value of the mutated `yearStart`
cell. `ids i` is the `generateId()` draw consumed by iteration `i`; the
full loop is `chillerRun ids yearStart 0 52`. -/
def chillerRun (ids : Nat → String) (cell : JSDateTime) (i : Nat) :
    Nat → List CalendarEvent × JSDateTime
  | 0 => ([], cell)
  | k + 1 =>
    let step := chillerIter (ids i) cell i
    let rest := chillerRun ids step.2 (i + 1) k
    (step.1 :: rest.1, rest.2)

/-- The `generateInitialData` seed generator (src/index.tsx lines
84-133), given the current `year` and the stream `ids` of successive
`generateId()` results (event number `k` in push order consumes draw
`ids k`). Sections appear in source order: two backflow inspections,
twelve months of two maintenance checks, the 52-week chiller loop,
four quarterly grease cleans, twelve monthly carpet cleans, one power
wash, eight fixed annual events, three holiday tasks. -/
def generateInitialData (ids : Nat → String) (year : Int) : List CalendarEvent :=
  let yearStart := startOfYear year
  [createEvent (ids 0) "Backflow Inspection" (jsMkDate year 0 15 0 0) .maintenance .f1 "Garage/Main Line" 1,
   createEvent (ids 1) "Backflow Inspection" (jsMkDate year 6 15 0 0) .maintenance .f1 "Garage/Main Line" 1]
  ++ (List.range 12).flatMap (fun i =>
      [createEvent (ids (2 + 2 * i)) "Aroma System Check" (jsMkDate year (i : Int) 1 0 0) .maintenance .f2 "Lobby/Sanctuary" 1,
       createEvent (ids (3 + 2 * i)) "Elevator Maintenance (Eastern)" (jsMkDate year (i : Int) 5 0 0) .maintenance .f1 "All Floors" 1])
  ++ (chillerRun (fun i => ids (26 + i)) yearStart 0 52).1
  ++ [createEvent (ids 78) "Grease Tank/Hood Clean (Yanky)" (jsMkDate year 0 10 0 0) .maintenance .f6 "Kitchen" 1,
      createEvent (ids 79) "Grease Tank/Hood Clean (Yanky)" (jsMkDate year 3 10 0 0) .maintenance .f6 "Kitchen" 1,
      createEvent (ids 80) "Grease Tank/Hood Clean (Yanky)" (jsMkDate year 6 10 0 0) .maintenance .f6 "Kitchen" 1,
      createEvent (ids 81) "Grease Tank/Hood Clean (Yanky)" (jsMkDate year 9 10 0 0) .maintenance .f6 "Kitchen" 1]
  ++ (List.range 12).map (fun i =>
      createEvent (ids (82 + i)) "Carpet Deep Clean" (jsMkDate year (i : Int) 15 0 0) .cleaning .f2 "Sanctuary" 1)
  ++ [createEvent (ids 94) "Exterior Power Washing" (jsMkDate year 7 20 0 0) .cleaning .f1 "Exterior" 1,
      createEvent (ids 95) "CTeen Jr Kickoff" (jsMkDate year 7 24 0 0) .event .f6 "Rooftop Lounge" 1,
      createEvent (ids 96) "Chanukah Parade (CTeen)" (jsMkDate year 11 14 0 0) .event .f1 "Garage/Street" 1,
      createEvent (ids 97) "Purim Party (CTeen)" (jsMkDate year 2 1 0 0) .event .f2 "Sanctuary" 1,
      createEvent (ids 98) "BMC Orientation" (jsMkDate year 8 2 0 0) .event .f3 "Offices/Conf Room" 1,
      createEvent (ids 99) "BMC Challah Bake" (jsMkDate year 10 4 0 0) .event .f2 "Sanctuary Hall" 1,
      createEvent (ids 100) "BMC Gala" (jsMkDate year 4 12 0 0) .event .f6 "Rooftop Ballroom" 1,
      createEvent (ids 101) "Hebrew School Opening" (jsMkDate year 8 7 0 0) .event .f4 "Classrooms" 1,
      createEvent (ids 102) "Family Chanukah Party" (jsMkDate year 11 21 0 0) .event .f2 "Sanctuary" 1,
      createEvent (ids 103) "Rosh Hashana - Fabric Cleaning" (jsMkDate year 8 15 0 0) .cleaning .f2 "Sanctuary" 1,
      createEvent (ids 104) "Sukkah Build" (jsMkDate year 8 29 0 0) .maintenance .f1 "Courtyard" 1,
      createEvent (ids 105) "Pesach Chametz Deep Clean" (jsMkDate year 3 10 0 0) .cleaning .f6 "Kitchen/All Floors" 1]

/-- The visibility predicate applied per event by
`CalendarView.filteredEvents` (src/index.tsx lines 567-575): the body of
the `events.filter` callback, translated clause by clause. -/
def eventVisible (filters : FilterState) (e : CalendarEvent) : Bool :=
  if !filters.showMaintenance && e.category == .maintenance then false
  else if !filters.showCleaning && e.category == .cleaning then false
  else if !filters.showEvents && e.category == .event then false
  else
    match filters.floor with
    | some fl => if e.floor != fl then false else true
    | none => true

/-- `CalendarView.filteredEvents` (src/index.tsx lines 567-575). -/
def CalendarView.filteredEvents (filters : FilterState)
    (events : List CalendarEvent) : List CalendarEvent :=
  events.filter (eventVisible filters)

/-- A civil reference date, standing for the `currentDate` prop. -/
structure CivilDate where
  year : Int
  month : Int
  day : Int
deriving DecidableEq

/-- Day number of a civil reference date. -/
def CivilDate.toDayNumber (c : CivilDate) : Int :=
  daysFromCivil c.year c.month c.day

/-- date-fns `startOfMonth`. -/
def startOfMonth (c : CivilDate) : CivilDate := { c with day := 1 }

/-- date-fns `endOfMonth`. -/
def endOfMonth (c : CivilDate) : CivilDate :=
  { c with day := daysInMonth c.year c.month }

/-- date-fns `startOfWeek` (default week start Sunday), on day numbers. -/
def startOfWeek (t : Int) : Int := t - dayOfWeek t

/-- date-fns `endOfWeek` (default week end Saturday), on day numbers. -/
def endOfWeek (t : Int) : Int := t + (6 - dayOfWeek t)

/-- date-fns `eachDayOfInterval`: every day of the inclusive range. -/
def eachDayOfInterval (s e : Int) : List Int :=
  (List.range (e - s + 1).toNat).map (fun k => s + Int.ofNat k)

/-- `CalendarView.days` (src/index.tsx lines 560-565): the month grid
dates, as day numbers. -/
def CalendarView.days (ref : CivilDate) : List Int :=
  let monthStart := startOfMonth ref
  let monthEnd := endOfMonth monthStart
  let startDate := startOfWeek monthStart.toDayNumber
  let endDate := endOfWeek monthEnd.toDayNumber
  eachDayOfInterval startDate endDate

/-- The per-cell day bucket `dayEvents` (src/index.tsx line 654):
`filteredEvents.filter(e => isSameDay(e.start, day))`, for the grid
date with day number `d` (grid dates are local midnights). -/
def CalendarView.dayEvents (filters : FilterState)
    (events : List CalendarEvent) (d : Int) : List CalendarEvent :=
  (CalendarView.filteredEvents filters events).filter
    (fun e => isSameDay e.start ⟨d, 0, 0⟩)

/-- The full grid projection of `CalendarView` (src/index.tsx lines
560-575 and 653-654): each grid date paired with its day bucket. -/
def projectGrid (ref : CivilDate) (filters : FilterState)
    (events : List CalendarEvent) : List (Int × List CalendarEvent) :=
  (CalendarView.days ref).map
    (fun d => (d, CalendarView.dayEvents filters events d))

/-- The CalendarEvent built by `handleApproveRequest` (src/index.tsx
lines 874-883) from the approved request. -/
def approvedEvent (req : Request) : CalendarEvent :=
  { id := req.id, title := req.title, start := req.date, «end» := req.date,
    category := req.category, floor := req.floor, room := req.room,
    description := some req.description, isRecurring := none }

/-- `handleApproveRequest` (src/index.tsx lines 873-886): appends the
new event and removes every pending request with the approved id. -/
def handleApproveRequest (req : Request) (events : List CalendarEvent)
    (requests : List Request) : List CalendarEvent × List Request :=
  (events ++ [approvedEvent req], requests.filter (fun r => r.id != req.id))

/-- `handleRejectRequest` (src/index.tsx lines 888-892); `confirmed` is
the result of the synchronous `confirm` gate. -/
def handleRejectRequest (confirmed : Bool) (req : Request)
    (events : List CalendarEvent) (requests : List Request) :
    List CalendarEvent × List Request :=
  if confirmed then (events, requests.filter (fun r => r.id != req.id))
  else (events, requests)

/-- `handleUpdateEvent` (src/index.tsx lines 903-906). -/
def handleUpdateEvent (updatedEvent : CalendarEvent)
    (events : List CalendarEvent) : List CalendarEvent :=
  events.map (fun e => if e.id == updatedEvent.id then updatedEvent else e)

/-- `EditEventModal.handleSubmit` (src/index.tsx lines 388-405): `y`,
`m`, `d` are the numbers parsed from the ISO date field (`m` 1-based,
hence the `m - 1` month index); start is 9:00, end is start with the
hour set to 10. -/
def EditEventModal.handleSubmit (event : CalendarEvent) (title : String)
    (y m d : Int) (category : EventCategory) (floor : Floor)
    (room : String) (description : String) : CalendarEvent :=
  let start := jsMkDate y (m - 1) d 9 0
  let endDate := start.setHours 10
  { event with
    title := title, start := start, «end» := endDate,
    category := category, floor := floor, room := room,
    description := some description }

/-- Modelled from the spec (section 4.3): the visibility contract in the
words of the specification, to be compared with the source predicate
`eventVisible`. An event is visible iff the show-flag of its category is
true and either no floor filter is set or the floors agree. -/
def specIsVisible (filters : FilterState) (e : CalendarEvent) : Bool :=
  (match e.category with
   | .maintenance => filters.showMaintenance
   | .cleaning => filters.showCleaning
   | .event => filters.showEvents) &&
  (match filters.floor with
   | none => true
   | some fl => e.floor == fl)

/-- Erases the randomly generated id of an event, leaving every other
field; used to state determinism of the seed generator up to ids. -/
def stripId (e : CalendarEvent) : CalendarEvent := { e with id := "" }

/-- The invariant of section 3 of the spec: the event starts no later
than it ends. -/
def evLe (e : CalendarEvent) : Prop :=
  e.start.toMinutes ≤ e.«end».toMinutes

instance (e : CalendarEvent) : Decidable (evLe e) := by
  unfold evLe; infer_instance

/-- The example request of the spec (section 8): title Fix AC, date
2025-03-10, Maintenance, floor 3, room Offices. -/
def fixAcRequest : Request :=
  { id := "r1", title := "Fix AC", date := ⟨daysFromCivil 2025 3 10, 0, 0⟩,
    category := .maintenance, floor := .f3, room := "Offices",
    description := "", status := .pending, submittedBy := none }

/-- C2: for every pending request, approval constructs exactly one
CalendarEvent carrying the request id, title, category, floor, room and
description, with start and end both equal to the request date, and
appends it to the event collection; in particular the Fix AC example
request yields an event with floor 3, room Offices, category
Maintenance and a start date of 2025-03-10. -/
theorem approve_constructs_event (req : Request) (events : List CalendarEvent)
    (requests : List Request) :
    (handleApproveRequest req events requests).1 = events ++ [approvedEvent req] ∧
    (approvedEvent req).id = req.id ∧
    (approvedEvent req).title = req.title ∧
    (approvedEvent req).category = req.category ∧
    (approvedEvent req).floor = req.floor ∧
    (approvedEvent req).room = req.room ∧
    (approvedEvent req).description = some req.description ∧
    (approvedEvent req).start = req.date ∧
    (approvedEvent req).«end» = req.date ∧
    (approvedEvent fixAcRequest).floor = Floor.f3 ∧
    (approvedEvent fixAcRequest).room = "Offices" ∧
    (approvedEvent fixAcRequest).category = EventCategory.maintenance ∧
    (approvedEvent fixAcRequest).start.day = daysFromCivil 2025 3 10 :=
  ⟨rfl, rfl, rfl, rfl, rfl, rfl, rfl, rfl, rfl, rfl, rfl, rfl, rfl⟩

/-- C3: after approval the pending collection holds no request with the
approved id and the event collection gains exactly the one appended
event with that id; a confirmed rejection removes the id from the
pending collection and leaves the events unchanged; a declined
rejection leaves both collections unchanged. -/
theorem request_lifecycle (req : Request) (events : List CalendarEvent)
    (requests : List Request) :
    ((handleApproveRequest req events requests).2).Forall (fun r => r.id ≠ req.id) ∧
    (handleApproveRequest req events requests).1 = events ++ [approvedEvent req] ∧
    (approvedEvent req).id = req.id ∧
    ((handleRejectRequest true req events requests).2).Forall (fun r => r.id ≠ req.id) ∧
    (handleRejectRequest true req events requests).1 = events ∧
    handleRejectRequest false req events requests = (events, requests) := by
  refine ⟨?_, rfl, rfl, ?_, rfl, rfl⟩ <;>
  · rw [List.forall_iff_forall_mem]
    intro r hr
    simp only [handleApproveRequest, handleRejectRequest, if_true,
      List.mem_filter, bne_iff_ne, ne_eq] at hr
    exact hr.2

/-- C4: the filter evaluator of `CalendarView.filteredEvents` deems an
event visible exactly when the show-flag of its category is true and
either no floor filter is set or the floors agree, as the specification
states it. -/
theorem filter_evaluator_matches_spec (filters : FilterState) (e : CalendarEvent) :
    eventVisible filters e = specIsVisible filters e := by
  rcases e with ⟨i, t, s, en, cat, fl, rm, ds, ir⟩
  rcases filters with ⟨sm, sc, se, flo⟩
  cases cat <;> rcases flo with _ | g <;>
    cases sm <;> cases sc <;> cases se <;>
      simp [eventVisible, specIsVisible] <;>
        rfl

/-- C6: the day bucket of a projected grid date holds exactly the
filter-visible events starting on that civil day, in the order of the
source collection (it is a sublist of the source collection). -/
theorem day_bucket_exact (filters : FilterState) (events : List CalendarEvent)
    (d : Int) :
    CalendarView.dayEvents filters events d =
      events.filter (fun e => eventVisible filters e && isSameDay e.start ⟨d, 0, 0⟩) ∧
    (CalendarView.dayEvents filters events d).Sublist events := by
  constructor
  · simp [CalendarView.dayEvents, CalendarView.filteredEvents,
      List.filter_filter, Bool.and_comm]
  · exact (List.filter_sublist _).trans (List.filter_sublist _)

/-- C8: the grid projector is a pure function of the reference month,
filter state and event collection, so two invocations on the same
inputs yield structurally identical grids, and every event appearing in
a bucket is an element of the input collection, unchanged (the
projector only reads the collection; its array operations in the source
are the non-mutating `filter` and `map`). -/
theorem grid_projector_idempotent (ref : CivilDate) (filters : FilterState)
    (events : List CalendarEvent) :
    projectGrid ref filters events = projectGrid ref filters events ∧
    (projectGrid ref filters events).Forall
      (fun cell => cell.2.Forall (fun ev => ev ∈ events)) := by
  refine ⟨rfl, ?_⟩
  rw [List.forall_iff_forall_mem]
  intro cell hcell
  rw [List.forall_iff_forall_mem]
  intro ev hev
  rw [projectGrid, List.mem_map] at hcell
  obtain ⟨d, _, rfl⟩ := hcell
  exact List.mem_of_mem_filter (List.mem_of_mem_filter hev)

/-- C10: updating an event replaces exactly the positions whose id
equals the updated id and leaves every other position unchanged,
preserving length and relative order. -/
theorem update_event_frame (u : CalendarEvent) (events : List CalendarEvent) :
    (handleUpdateEvent u events).length = events.length ∧
    ∀ i : Nat, (handleUpdateEvent u events)[i]? =
      events[i]?.map (fun e => if e.id == u.id then u else e) := by
  constructor
  · simp [handleUpdateEvent]
  · intro i
    simp [handleUpdateEvent, List.getElem?_map]

theorem daysInMonth_ge_one (y m : Int) : 1 ≤ daysInMonth y m := by
  unfold daysInMonth
  split
  · split <;> norm_num
  · split <;> norm_num

theorem daysFromCivil_day_eq (y m d : Int) :
    daysFromCivil y m d = daysFromCivil y m 1 + (d - 1) := by
  unfold daysFromCivil
  omega

theorem eachDayOfInterval_length (s e : Int) :
    (eachDayOfInterval s e).length = (e - s + 1).toNat := by
  rw [eachDayOfInterval, List.length_map, List.length_range]

theorem eachDayOfInterval_head (s e : Int) (h : s ≤ e) :
    (eachDayOfInterval s e).head? = some s := by
  have hn : (e - s + 1).toNat = (e - s).toNat + 1 := by omega
  rw [eachDayOfInterval, hn, List.range_succ_eq_map]
  simp

theorem eachDayOfInterval_getLast (s e : Int) (h : s ≤ e) :
    (eachDayOfInterval s e).getLast? = some e := by
  have hn : (e - s + 1).toNat = (e - s).toNat + 1 := by omega
  rw [eachDayOfInterval, hn, List.range_succ, List.map_append]
  simp only [List.map_cons, List.map_nil, List.getLast?_concat]
  congr 1
  simp only [Int.ofNat_eq_coe]
  omega

/-- C5: for every reference month the projected grid is a whole number
of display weeks: its length is a multiple of 7, its first date is a
week-start day (Sunday) on or before the first of the month, and its
last date is a week-end day (Saturday) on or after the last day of the
month. -/
theorem calendar_grid_shape (y m d : Int) (hm1 : 1 ≤ m) (hm2 : m ≤ 12) :
    (7 : Nat) ∣ (CalendarView.days ⟨y, m, d⟩).length ∧
    (CalendarView.days ⟨y, m, d⟩).head? = some (startOfWeek (daysFromCivil y m 1)) ∧
    dayOfWeek (startOfWeek (daysFromCivil y m 1)) = 0 ∧
    startOfWeek (daysFromCivil y m 1) ≤ daysFromCivil y m 1 ∧
    (CalendarView.days ⟨y, m, d⟩).getLast? =
      some (endOfWeek (daysFromCivil y m (daysInMonth y m))) ∧
    dayOfWeek (endOfWeek (daysFromCivil y m (daysInMonth y m))) = 6 ∧
    daysFromCivil y m (daysInMonth y m) ≤
      endOfWeek (daysFromCivil y m (daysInMonth y m)) := by
  have hdim : 1 ≤ daysInMonth y m := daysInMonth_ge_one y m
  have hshift : daysFromCivil y m (daysInMonth y m) =
      daysFromCivil y m 1 + (daysInMonth y m - 1) :=
    daysFromCivil_day_eq y m (daysInMonth y m)
  have hdays : CalendarView.days ⟨y, m, d⟩ =
      eachDayOfInterval (startOfWeek (daysFromCivil y m 1))
        (endOfWeek (daysFromCivil y m (daysInMonth y m))) := rfl
  have hse : startOfWeek (daysFromCivil y m 1) ≤
      endOfWeek (daysFromCivil y m (daysInMonth y m)) := by
    unfold startOfWeek endOfWeek dayOfWeek
    omega
  refine ⟨?_, ?_, ?_, ?_, ?_, ?_, ?_⟩
  · rw [hdays, eachDayOfInterval_length]
    unfold startOfWeek endOfWeek dayOfWeek
    omega
  · rw [hdays]
    exact eachDayOfInterval_head _ _ hse
  · unfold startOfWeek dayOfWeek
    omega
  · unfold startOfWeek dayOfWeek
    omega
  · rw [hdays]
    exact eachDayOfInterval_getLast _ _ hse
  · unfold endOfWeek dayOfWeek
    omega
  · unfold endOfWeek dayOfWeek
    omega

/-- Witness for C5 at the concrete reference month March 2025. -/
theorem calendar_grid_shape_witness :
    ((1 : Int) ≤ 3 ∧ (3 : Int) ≤ 12) ∧
    ((7 : Nat) ∣ (CalendarView.days ⟨2025, 3, 15⟩).length ∧
    (CalendarView.days ⟨2025, 3, 15⟩).head? = some (startOfWeek (daysFromCivil 2025 3 1)) ∧
    dayOfWeek (startOfWeek (daysFromCivil 2025 3 1)) = 0 ∧
    startOfWeek (daysFromCivil 2025 3 1) ≤ daysFromCivil 2025 3 1 ∧
    (CalendarView.days ⟨2025, 3, 15⟩).getLast? =
      some (endOfWeek (daysFromCivil 2025 3 (daysInMonth 2025 3))) ∧
    dayOfWeek (endOfWeek (daysFromCivil 2025 3 (daysInMonth 2025 3))) = 6 ∧
    daysFromCivil 2025 3 (daysInMonth 2025 3) ≤
      endOfWeek (daysFromCivil 2025 3 (daysInMonth 2025 3))) :=
  ⟨⟨by norm_num, by norm_num⟩, calendar_grid_shape 2025 3 15 (by norm_num) (by norm_num)⟩

theorem createEvent_le (idStr title : String) (date : JSDateTime)
    (category : EventCategory) (floor : Floor) (room : String)
    (durationHours : Nat) :
    evLe (createEvent idStr title date category floor room durationHours) := by
  simp only [createEvent, evLe, JSDateTime.setHours, JSDateTime.setMinutes,
    JSDateTime.toMinutes]
  omega

theorem chillerIter_snd (id₁ id₂ : String) (cell : JSDateTime) (i : Nat) :
    (chillerIter id₁ cell i).2 = (chillerIter id₂ cell i).2 := rfl

theorem chillerRun_snd (ids₁ ids₂ : Nat → String) :
    ∀ (k : Nat) (cell : JSDateTime) (i : Nat),
      (chillerRun ids₁ cell i k).2 = (chillerRun ids₂ cell i k).2 := by
  intro k
  induction k with
  | zero => intro cell i; rfl
  | succ k ih =>
    intro cell i
    simp only [chillerRun]
    rw [chillerIter_snd (ids₁ i) (ids₂ i) cell i]
    exact ih _ _

theorem chillerRun_stripId (ids₁ ids₂ : Nat → String) :
    ∀ (k : Nat) (cell : JSDateTime) (i : Nat),
      ((chillerRun ids₁ cell i k).1).map stripId =
        ((chillerRun ids₂ cell i k).1).map stripId := by
  intro k
  induction k with
  | zero => intro cell i; rfl
  | succ k ih =>
    intro cell i
    simp only [chillerRun, List.map_cons]
    rw [chillerIter_snd (ids₁ i) (ids₂ i) cell i, ih]
    rfl

theorem chillerRun_forall_le (ids : Nat → String) :
    ∀ (k : Nat) (cell : JSDateTime) (i : Nat),
      ((chillerRun ids cell i k).1).Forall evLe := by
  intro k
  induction k with
  | zero => intro cell i; trivial
  | succ k ih =>
    intro cell i
    rw [List.forall_iff_forall_mem]
    intro e he
    simp only [chillerRun, List.mem_cons] at he
    rcases he with rfl | he
    · exact createEvent_le ..
    · have := ih (chillerIter (ids i) cell i).2 (i + 1)
      rw [List.forall_iff_forall_mem] at this
      exact this e he

theorem forall_le_append (l₁ l₂ : List CalendarEvent) (h₁ : l₁.Forall evLe)
    (h₂ : l₂.Forall evLe) : (l₁ ++ l₂).Forall evLe := by
  rw [List.forall_iff_forall_mem] at h₁ h₂ ⊢
  intro x hx
  rcases List.mem_append.1 hx with h | h
  · exact h₁ x h
  · exact h₂ x h

theorem forall_le_of_literal (l : List CalendarEvent)
    (h : ∀ x ∈ l, evLe x) : l.Forall evLe :=
  (List.forall_iff_forall_mem).2 h

theorem generateInitialData_forall_le (ids : Nat → String) (year : Int) :
    (generateInitialData ids year).Forall evLe := by
  simp only [generateInitialData]
  refine forall_le_append _ _ (forall_le_append _ _ (forall_le_append _ _
    (forall_le_append _ _ (forall_le_append _ _ ?_ ?_) ?_) ?_) ?_) ?_
  · refine forall_le_of_literal _ fun x hx => ?_
    simp only [List.mem_cons, List.not_mem_nil, or_false] at hx
    rcases hx with rfl | rfl
    all_goals exact createEvent_le ..
  · refine forall_le_of_literal _ fun x hx => ?_
    simp only [List.mem_flatMap, List.mem_cons, List.not_mem_nil,
      or_false] at hx
    obtain ⟨i, _, rfl | rfl⟩ := hx
    all_goals exact createEvent_le ..
  · exact chillerRun_forall_le (fun i => ids (26 + i)) 52 (startOfYear year) 0
  · refine forall_le_of_literal _ fun x hx => ?_
    simp only [List.mem_cons, List.not_mem_nil, or_false] at hx
    rcases hx with rfl | rfl | rfl | rfl
    all_goals exact createEvent_le ..
  · refine forall_le_of_literal _ fun x hx => ?_
    obtain ⟨i, _, rfl⟩ := List.mem_map.1 hx
    exact createEvent_le ..
  · refine forall_le_of_literal _ fun x hx => ?_
    simp only [List.mem_cons, List.not_mem_nil, or_false] at hx
    rcases hx with rfl | rfl | rfl | rfl | rfl | rfl | rfl | rfl | rfl | rfl |
      rfl | rfl
    all_goals exact createEvent_le ..

/-- C9: every CalendarEvent the program ever places in the event
collection satisfies start ≤ end: every seed-generated event does, the
event constructed by request approval does (start equals end), the
event constructed by the edit form does (9:00 to 10:00), and an update
with an edit-form result preserves the invariant across the whole
collection. -/
theorem event_invariant_start_le_end :
    (∀ (ids : Nat → String) (year : Int),
      (generateInitialData ids year).Forall evLe) ∧
    (∀ req : Request, evLe (approvedEvent req)) ∧
    (∀ (event : CalendarEvent) (title : String) (y m d : Int)
        (category : EventCategory) (floor : Floor) (room description : String),
      evLe (EditEventModal.handleSubmit event title y m d category floor
        room description)) ∧
    (∀ (u : CalendarEvent) (events : List CalendarEvent),
      evLe u → events.Forall evLe → (handleUpdateEvent u events).Forall evLe) := by
  refine ⟨generateInitialData_forall_le, ?_, ?_, ?_⟩
  · intro req
    simp [approvedEvent, evLe]
  · intro event title y m d category floor room description
    simp only [EditEventModal.handleSubmit, jsMkDate, JSDateTime.setHours,
      evLe, JSDateTime.toMinutes]
    omega
  · intro u events hu hall
    rw [List.forall_iff_forall_mem] at hall ⊢
    intro e he
    simp only [handleUpdateEvent, List.mem_map] at he
    obtain ⟨a, ha, rfl⟩ := he
    by_cases h : a.id == u.id
    · simp only [h, if_true]
      exact hu
    · simp only [h, if_false]
      exact hall a ha

/-- A sample event used by the witness of the invariant theorem. -/
def sampleEvent : CalendarEvent :=
  createEvent ("e0") "Sample" ⟨0, 0, 0⟩ .maintenance .f1 "Room" 1

/-- Witness for C9: the update-preservation conjunct applied to a
concrete event and collection, with both hypotheses discharged by
evaluation. -/
theorem event_invariant_witness :
    evLe sampleEvent ∧ ([sampleEvent] : List CalendarEvent).Forall evLe ∧
    (handleUpdateEvent sampleEvent [sampleEvent]).Forall evLe :=
  ⟨by decide, by decide,
    event_invariant_start_le_end.2.2.2 sampleEvent [sampleEvent]
      (by decide) (by decide)⟩

set_option maxRecDepth 100000 in
/-- C1 (refutation of the claim on the code, supporting the stated
intent of the specification): in the current year 2026 (whose January 1st is a
Thursday) the weekly loop does mutate the shared year-start reference.
On iteration 0 the aliased `current.setDate(diff)` moves `yearStart`
from 2026-01-01 (day 20454) to Monday 2025-12-29 (day 20451), so the
first generated Chiller Inspection starts on 2025-12-29, not on the
immutable year start plus zero weeks, and the cell ends the loop
mutated. -/
theorem chiller_loop_mutates_year_start :
    ((generateInitialData (fun n => toString n) 2026)[26]?).map
        (fun e => (e.title, e.start.day)) =
      some (("Chiller Inspection", daysFromCivil 2025 12 29)) ∧
    daysFromCivil 2025 12 29 ≠ (startOfYear 2026).day + 7 * 0 ∧
    (chillerRun (fun i => toString (26 + i)) (startOfYear 2026) 0 1).2 ≠
      startOfYear 2026 := by
  refine ⟨by decide, by decide, by decide⟩

theorem stripId_createEvent (a t : String) (dt : JSDateTime)
    (c : EventCategory) (f : Floor) (r : String) (h : Nat) :
    stripId (createEvent a t dt c f r h) = createEvent ("") t dt c f r h := rfl

set_option maxRecDepth 100000 in
/-- C7 (counterexample): two invocations of the seed generator in the
same year whose `Math.random`-backed `generateId` draws differ produce
different event sequences (their ids differ), so the generator is not
deterministic including ids. -/
theorem seed_generator_ids_differ :
    generateInitialData (fun _ => "a") 2026 ≠
      generateInitialData (fun n => toString n) 2026 := by
  intro h
  have h0 : ((generateInitialData (fun _ => "a") 2026)[0]?).map CalendarEvent.id =
      ((generateInitialData (fun n => toString n) 2026)[0]?).map CalendarEvent.id := by
    rw [h]
  exact absurd h0 (by decide)

/-- C7 (amended): the seed generator is deterministic given the current
year up to the freshly drawn random ids: any two invocations in the
same year agree on every field of every event except `id`. -/
theorem seed_deterministic_up_to_ids (year : Int) (ids₁ ids₂ : Nat → String) :
    (generateInitialData ids₁ year).map stripId =
      (generateInitialData ids₂ year).map stripId := by
  simp only [generateInitialData, List.map_append, List.map_flatMap,
    List.map_cons, List.map_nil, stripId_createEvent]
  rw [chillerRun_stripId (fun i => ids₁ (26 + i)) (fun i => ids₂ (26 + i))
    52 (startOfYear year) 0]
  rfl

end ChabadCalendar
